import Mathlib

/-!
A shallow embedding of `ebs_snapshot_automation.py` (smaato/ebs-snapshot-automation).

The script has three functions: `make_snapshots`, `delete_old_snapshots` and
`main`.  All cloud interaction goes through a boto3 EC2 client; here the client
is an explicit oracle (`Env`) fixing the outcome of every API call.  Every API
call and every log line the script emits is recorded in an event trace.

Python semantics that matter for fidelity and are modelled explicitly:
* function-level variable scope: `snapshot` (set in the `try` around
  `create_snapshot`) and `volumes_for_instance` keep their value from a
  previous loop iteration when the assigning call raises, and referencing
  them before any assignment raises `NameError`;
* `except BotoCoreError` does not catch `NameError` or `IndexError`, so those
  propagate out of the function;
* `sys.exit(code)` terminates the process with that code;
* `list.pop(0)` on an empty list raises `IndexError`;
* truthiness: `if instance_name:` is false for `None` and for the empty string;
* `str.split(':')` splits on every colon (`""` gives `[""]`).

Abstractions (noted where used): `datetime.now().strftime('%Y-%m-%d %H:%M')`
is the oracle's fixed string `nowStr` (no claim depends on time progressing
between volumes); Python's `sorted` is a stable sort and `list(set(...))`
iterates in unspecified order — the model sorts with a plain insertion sort
and deduplicates keeping first occurrences, since no claim depends on the
tie-break among equal timestamps or on the volume iteration order.
-/

namespace EbsSnapshotAutomation

/-- A provider error (`BotoCoreError`): one reportable kind with a message. -/
structure ApiError where
  msg : String
deriving DecidableEq, Repr

/-- Exceptions the script can raise that `except BotoCoreError` does not catch. -/
inductive PyError where
  | nameError
  | indexError
deriving DecidableEq, Repr

/-- A key/value tag, as used on instances and snapshots. -/
structure Tag where
  key : String
  value : String
deriving DecidableEq, Repr

/-- One attachment record of a volume: device path and owning instance id. -/
structure Attachment where
  device : String
  instanceId : String
deriving DecidableEq, Repr

/-- An EBS volume as returned by `describe_volumes` (already filtered to
`status == in-use` by the query the script issues). -/
structure Volume where
  volumeId : String
  attachments : List Attachment
deriving DecidableEq, Repr

/-- An EC2 instance as returned by `describe_instances`. -/
structure Instance where
  instanceId : String
  tags : List Tag
deriving DecidableEq, Repr

/-- A reservation: `describe_instances` groups instances into reservations,
and the script flattens them with `chain.from_iterable`. -/
structure Reservation where
  instances : List Instance
deriving DecidableEq, Repr

/-- A snapshot as returned by `describe_snapshots`.  `StartTime` is a
`datetime`; only its total order matters, so it is an integer here. -/
structure Snapshot where
  snapshotId : String
  volumeId : String
  startTime : Int
deriving DecidableEq, Repr

/-- The oracle for the EC2 client: the outcome of every API call the script
can make, plus the formatted local timestamp. -/
structure Env where
  sessionResult : Except ApiError Unit
  describeInstances : String → String → Except ApiError (List Reservation)
  describeVolumes : String → Except ApiError (List Volume)
  createSnapshot : String → Except ApiError String
  createTags : String → List Tag → Except ApiError Unit
  describeSnapshots : String → String → Except ApiError (List Snapshot)
  deleteSnapshot : String → Except ApiError Unit
  nowStr : String

/-- Everything observable the script does: API calls (in order, whether or
not they fail) and log lines. -/
inductive Event where
  | describeInstancesCall (tagKey tagValue : String)
  | describeVolumesCall (instanceId : String)
  | describeSnapshotsCall (tagKey tagValue : String)
  | createSnapshotCall (volumeId : String) (description : String)
  | createTagsCall (resource : String) (tags : List Tag)
  | deleteSnapshotCall (snapshotId : String)
  | logInfo (msg : String)
  | logWarning (msg : String)
  | logError (msg : String)
deriving DecidableEq, Repr

/-- How a run (or a phase) of the script ends: fall off the end, `sys.exit`,
or an uncaught exception. -/
inductive Outcome where
  | normal
  | exited (code : Nat)
  | raised (e : PyError)
deriving DecidableEq, Repr

/-- Events that are calls to the cloud API (as opposed to log lines). -/
def Event.isApiCall : Event → Bool
  | .describeInstancesCall _ _ => true
  | .describeVolumesCall _ => true
  | .describeSnapshotsCall _ _ => true
  | .createSnapshotCall _ _ => true
  | .createTagsCall _ _ => true
  | .deleteSnapshotCall _ => true
  | _ => false

/-- Events that are mutating API calls (create-snapshot, create-tags,
delete-snapshot). -/
def Event.isMutatingCall : Event → Bool
  | .createSnapshotCall _ _ => true
  | .createTagsCall _ _ => true
  | .deleteSnapshotCall _ => true
  | _ => false

/-- `', '.join(...)`. -/
def joinComma (l : List String) : String :=
  String.intercalate (", ") l

/-- Lines 61-65: `instance_name = None`, then the last `Name` tag (if any)
wins (the `continue` in the source is a no-op). -/
def instanceNameOf (inst : Instance) : Option String :=
  inst.tags.foldl (fun acc t => if t.key = ("Name") then some t.value else acc) none

/-- Python truthiness of `instance_name`: `None` and `''` are falsy. -/
def isTruthyName : Option String → Bool
  | none => false
  | some s => !s.isEmpty

/-- Lines 67-119: the body of the inner volume loop of `make_snapshots`.
`snapVar` is the current value of the function-scoped Python variable
`snapshot` (`none` if it was never assigned).  Returns the events of this
iteration and either the updated `snapshot` variable or the uncaught
exception: when `create_snapshot` raised and `snapshot` was never assigned,
evaluating `snapshot['SnapshotId']` in the `create_tags` call raises
`NameError` (only `BotoCoreError` is caught there). -/
def processVolume (env : Env) (instanceId : String) (instanceName : Option String)
    (tagKey tagValue : String) (snapVar : Option String) (vol : Volume) :
    List Event × Except PyError (Option String) :=
  let devices := joinComma (vol.attachments.map (fun a => a.device))
  let attInstances := joinComma (vol.attachments.map (fun a => a.instanceId))
  let description :=
    if isTruthyName instanceName then
      ("automated snapshot of volume ") ++ vol.volumeId ++ (" attached as ") ++
        devices ++ (" to ") ++ instanceName.getD ("") ++ (" (") ++ attInstances ++ (")")
    else
      ("automated snapshot of volume ") ++ vol.volumeId ++ (" attached as ") ++
        devices ++ (" to ") ++ attInstances
  let createStep :=
    match env.createSnapshot vol.volumeId with
    | .error e =>
        ([Event.createSnapshotCall vol.volumeId description,
          Event.logError (("Creating a snapshot of volume ") ++ vol.volumeId ++
            (" failed:\n") ++ e.msg)], snapVar)
    | .ok sid =>
        ([Event.createSnapshotCall vol.volumeId description,
          Event.logInfo (("Creating snapshot ") ++ sid ++ (" of volume ") ++
            vol.volumeId)], some sid)
  let ev1 := createStep.1
  let snapVar2 := createStep.2
  let nameTagValue :=
    if isTruthyName instanceName then
      instanceName.getD ("") ++ (" ") ++ devices ++ (" ") ++ env.nowStr
    else
      attInstances ++ (" ") ++ devices ++ (" ") ++ env.nowStr
  match snapVar2 with
  | none => (ev1, .error .nameError)
  | some sid =>
      let tags := [Tag.mk ("Name") nameTagValue,
                   Tag.mk ("Creator") ("ebs_snapshot_automation"),
                   Tag.mk ("Origin-Instance") instanceId,
                   Tag.mk (("Origin-") ++ tagKey) tagValue]
      let ev2 :=
        match env.createTags sid tags with
        | .error e =>
            [Event.createTagsCall sid tags,
             Event.logError (("Tagging the snapshot ") ++ sid ++ (" of volume ") ++
               vol.volumeId ++ (" failed:\n") ++ e.msg)]
        | .ok _ => [Event.createTagsCall sid tags]
      (ev1 ++ ev2, .ok snapVar2)

/-- The volume loop of `make_snapshots`, threading the `snapshot` variable. -/
def processVolumes (env : Env) (instanceId : String) (instanceName : Option String)
    (tagKey tagValue : String) (snapVar : Option String) :
    List Volume → List Event × Except PyError (Option String)
  | [] => ([], .ok snapVar)
  | vol :: rest =>
    let step := processVolume env instanceId instanceName tagKey tagValue snapVar vol
    match step.2 with
    | .error e => (step.1, .error e)
    | .ok sv =>
        let next := processVolumes env instanceId instanceName tagKey tagValue sv rest
        (step.1 ++ next.1, next.2)

/-- Lines 44-119: the body of the instance loop of `make_snapshots`.
`volsVar` is the function-scoped Python variable `volumes_for_instance`
(stale from the previous iteration if `describe_volumes` raised, `none` if
never assigned — referencing it then raises `NameError`).  An instance with
an empty volume list hits `sys.exit(1)` (line 58). -/
def processInstance (env : Env) (tagKey tagValue : String)
    (snapVar : Option String) (volsVar : Option (List Volume)) (inst : Instance) :
    List Event × Except Outcome (Option String × Option (List Volume)) :=
  let volStep :=
    match env.describeVolumes inst.instanceId with
    | .error e =>
        ([Event.describeVolumesCall inst.instanceId,
          Event.logError (("Failed to get the list of volumes attached to instance ") ++
            inst.instanceId ++ (":\n") ++ e.msg)], volsVar)
    | .ok vs => ([Event.describeVolumesCall inst.instanceId], some vs)
  let ev1 := volStep.1
  match volStep.2 with
  | none => (ev1, .error (.raised .nameError))
  | some vols =>
      if vols.isEmpty then
        (ev1 ++ [Event.logWarning (("Found instance ") ++ inst.instanceId ++
          (" to backup, but no attached volumes. Something is fishy here. Aborting …"))],
         .error (.exited 1))
      else
        let iname := instanceNameOf inst
        let body := processVolumes env inst.instanceId iname tagKey tagValue snapVar vols
        match body.2 with
        | .error e => (ev1 ++ body.1, .error (.raised e))
        | .ok sv => (ev1 ++ body.1, .ok (sv, volStep.2))

/-- The instance loop of `make_snapshots`. -/
def processInstances (env : Env) (tagKey tagValue : String)
    (snapVar : Option String) (volsVar : Option (List Volume)) :
    List Instance → List Event × Outcome
  | [] => ([], .normal)
  | inst :: rest =>
    let step := processInstance env tagKey tagValue snapVar volsVar inst
    match step.2 with
    | .error o => (step.1, o)
    | .ok sv =>
        let next := processInstances env tagKey tagValue sv.1 sv.2 rest
        (step.1 ++ next.1, next.2)

/-- Lines 26-119: `make_snapshots(client, tag_key, tag_value)`.  On a failed
`describe_instances` the error is logged but execution falls through to
line 37, where the never-assigned `reservations` raises `NameError`. -/
def makeSnapshots (env : Env) (tagKey tagValue : String) : List Event × Outcome :=
  match env.describeInstances tagKey tagValue with
  | .error e =>
      ([Event.describeInstancesCall tagKey tagValue,
        Event.logError (("Failed to get list of instances to back up:\n") ++ e.msg)],
       .raised .nameError)
  | .ok reservations =>
      let instances := (reservations.map (fun r => r.instances)).flatten
      if instances.isEmpty then
        ([Event.describeInstancesCall tagKey tagValue,
          Event.logWarning (("Couldn\x27t find any instances whose volumes need ") ++
            ("snapshotting. Aborting …"))],
         .exited 0)
      else
        let body := processInstances env tagKey tagValue none none instances
        ([Event.describeInstancesCall tagKey tagValue] ++ body.1, body.2)

/-- Insert a snapshot into a list, keeping ascending `startTime`. -/
def insertByStart (a : Snapshot) : List Snapshot → List Snapshot
  | [] => [a]
  | b :: l => if a.startTime ≤ b.startTime then a :: b :: l else b :: insertByStart a l

/-- Line 139: `sorted(snapshots_for_volume, key=lambda x: x['StartTime'])`.
Python uses a stable merge sort; this insertion sort produces a sorted
permutation of the same list, and no claim depends on the order among equal
timestamps (the spec leaves that tie-break unspecified). -/
def sortByStart : List Snapshot → List Snapshot
  | [] => []
  | a :: l => insertByStart a (sortByStart l)

/-- Lines 138-139: the snapshots of one volume, oldest first. -/
def snapshotsForVolume (snaps : List Snapshot) (vid : String) : List Snapshot :=
  sortByStart (snaps.filter (fun s => s.volumeId = vid))

/-- Lines 141-155: the `while len(snapshots_for_volume) > num_backups` loop.
Each iteration first does `snapshots_for_volume.pop(0)` and then calls
`delete_snapshot`; a `BotoCoreError` from the delete is caught and logged,
but the element is already popped, so the loop always advances.  `pop(0)` on
an empty list (reachable when `num_backups < 0`) raises `IndexError`, which
`except BotoCoreError` does not catch.  Returns the events, the snapshots
whose deletion was attempted (in pop order), and either the remaining list
or the uncaught `IndexError`. -/
def pruneLoop (env : Env) (numBackups : Int) :
    List Snapshot → List Event × List Snapshot × Except PyError (List Snapshot)
  | [] =>
    if (0 : Int) > numBackups then ([], [], .error .indexError)
    else ([], [], .ok [])
  | s :: rest =>
    if ((s :: rest).length : Int) > numBackups then
      let ev :=
        match env.deleteSnapshot s.snapshotId with
        | .error e =>
            [Event.deleteSnapshotCall s.snapshotId,
             Event.logError (("Deleting snapshot ") ++ s.snapshotId ++ (" (") ++
               toString s.startTime ++ (") belonging to volume ") ++ s.volumeId ++
               (" failed:\n") ++ e.msg)]
        | .ok _ =>
            [Event.deleteSnapshotCall s.snapshotId,
             Event.logInfo (("Sucessfully deleted snapshot ") ++ s.snapshotId ++
               (" (") ++ toString s.startTime ++ (") belonging to volume ") ++
               s.volumeId)]
      let next := pruneLoop env numBackups rest
      (ev ++ next.1, s :: next.2.1, next.2.2)
    else ([], [], .ok (s :: rest))

/-- One iteration of the volume loop of `delete_old_snapshots` (lines
137-155): select and sort this volume's snapshots, then run the while loop. -/
def pruneVolume (env : Env) (numBackups : Int) (snaps : List Snapshot) (vid : String) :
    List Event × List Snapshot × Except PyError (List Snapshot) :=
  pruneLoop env numBackups (snapshotsForVolume snaps vid)

/-- The volume loop of `delete_old_snapshots`.  An uncaught `IndexError`
from `pruneLoop` propagates, so later volumes are not processed. -/
def pruneVolumes (env : Env) (numBackups : Int) (snaps : List Snapshot) :
    List String → List Event × Option PyError
  | [] => ([], none)
  | vid :: rest =>
    let step := pruneVolume env numBackups snaps vid
    match step.2.2 with
    | .error e => (step.1, some e)
    | .ok _ =>
        let next := pruneVolumes env numBackups snaps rest
        (step.1 ++ next.1, next.2)

/-- Lines 122-155: `delete_old_snapshots(client, tag_key, tag_value,
num_backups)`.  A failed `describe_snapshots` is fatal (`sys.exit(1)`).
Line 137 iterates `list(set(volume ids))`, whose order Python leaves
unspecified; modelled as first-occurrence deduplication. -/
def deleteOldSnapshots (env : Env) (tagKey tagValue : String) (numBackups : Int) :
    List Event × Outcome :=
  match env.describeSnapshots tagKey tagValue with
  | .error e =>
      ([Event.describeSnapshotsCall tagKey tagValue,
        Event.logError (("Getting all previously created snapshots failed:\n") ++ e.msg)],
       .exited 1)
  | .ok snaps =>
      let body := pruneVolumes env numBackups snaps ((snaps.map (fun s => s.volumeId)).dedup)
      ([Event.describeSnapshotsCall tagKey tagValue] ++ body.1,
       match body.2 with
       | some e => .raised e
       | none => .normal)

/-- Python `str.split(':')` on the character list: splits on every colon,
the empty string gives one empty field. -/
def splitCharsOnColon : List Char → List (List Char)
  | [] => [[]]
  | c :: rest =>
    let r := splitCharsOnColon rest
    if c = ':' then [] :: r
    else
      match r with
      | [] => [[c]]
      | g :: gs => (c :: g) :: gs

/-- Line 209: `args.tag.split(':')`. -/
def splitTag (s : String) : List String :=
  (splitCharsOnColon s.data).map (fun cs => String.mk cs)

/-- Lines 158-217: `main()`, after argument parsing.  `argparse` accepts any
integer for `--num-backups` (`type=int`, no bounds check) and any string for
`--tag`; both are passed through unchanged, so they are parameters here.
Session/client construction (lines 202-207) precedes tag validation and can
fail, but makes no cloud API call.  A `sys.exit` or an uncaught exception
inside `make_snapshots` terminates the process, so `delete_old_snapshots`
runs only when `make_snapshots` returns normally. -/
def mainRun (env : Env) (tagArg : String) (numBackups : Int) : List Event × Outcome :=
  match env.sessionResult with
  | .error e =>
      ([Event.logError (("Connecting to the EC2 API failed: ") ++ e.msg)], .exited 1)
  | .ok _ =>
      let kv := splitTag tagArg
      if kv.length ≠ 2 then
        ([Event.logError (("Given tag key value: \"") ++ tagArg ++ ("\" is invalid."))],
         .exited 1)
      else
        let tagKey := kv.getD 0 ("")
        let tagValue := kv.getD 1 ("")
        let phase1 := makeSnapshots env tagKey tagValue
        match phase1.2 with
        | .normal =>
            let phase2 := deleteOldSnapshots env tagKey tagValue numBackups
            (phase1.1 ++ phase2.1, phase2.2)
        | o => (phase1.1, o)

/-- The tag list the code computes for the tagging call issued while
processing volume `vol` of instance `inst` (lines 96-114): the `Name` label
falls back to the attaching instance ids when the `Name` tag is absent or
empty (Python truthiness of `instance_name`). -/
def codeExpectedTags (inst : Instance) (vol : Volume) (tagKey tagValue nowStr : String) :
    List Tag :=
  let devices := joinComma (vol.attachments.map (fun a => a.device))
  let attIds := joinComma (vol.attachments.map (fun a => a.instanceId))
  let label :=
    if isTruthyName (instanceNameOf inst) then (instanceNameOf inst).getD ("") else attIds
  [Tag.mk ("Name") (label ++ (" ") ++ devices ++ (" ") ++ nowStr),
   Tag.mk ("Creator") ("ebs_snapshot_automation"),
   Tag.mk ("Origin-Instance") inst.instanceId,
   Tag.mk (("Origin-") ++ tagKey) tagValue]

/-- The tag list claim C6 predicts, following the claim's words: the `Name`
label is "the instance's Name tag value if present and otherwise the
attaching instance identifier(s)" — to be compared with `codeExpectedTags`,
which is what the code computes. -/
def claimExpectedTags (inst : Instance) (vol : Volume) (tagKey tagValue nowStr : String) :
    List Tag :=
  let devices := joinComma (vol.attachments.map (fun a => a.device))
  let attIds := joinComma (vol.attachments.map (fun a => a.instanceId))
  let label :=
    match inst.tags.find? (fun t => t.key = ("Name")) with
    | some t => t.value
    | none => attIds
  [Tag.mk ("Name") (label ++ (" ") ++ devices ++ (" ") ++ nowStr),
   Tag.mk ("Creator") ("ebs_snapshot_automation"),
   Tag.mk ("Origin-Instance") inst.instanceId,
   Tag.mk (("Origin-") ++ tagKey) tagValue]

/-! ## Concrete fixtures used by witnesses and counterexamples -/

/-- Instance `i-1`, named `web1`, tagged `Lifecycle=legacy`. -/
def instWeb1 : Instance :=
  Instance.mk ("i-1") [Tag.mk ("Lifecycle") ("legacy"), Tag.mk ("Name") ("web1")]

/-- Instance `i-1` carrying a `Name` tag whose value is the empty string. -/
def instEmptyName : Instance :=
  Instance.mk ("i-1") [Tag.mk ("Lifecycle") ("legacy"), Tag.mk ("Name") ("")]

/-- Volume `vol-1`, attached to `i-1` as `/dev/sda1`. -/
def volSda1 : Volume := Volume.mk ("vol-1") [Attachment.mk ("/dev/sda1") ("i-1")]

/-- A healthy oracle: one matching instance (`instWeb1`) with one in-use
volume (`volSda1`); every API call succeeds; no pre-existing snapshots. -/
def envHappy : Env := {
  sessionResult := .ok ()
  describeInstances := fun _ _ => .ok [Reservation.mk [instWeb1]]
  describeVolumes := fun _ => .ok [volSda1]
  createSnapshot := fun v => .ok (("snap-") ++ v)
  createTags := fun _ _ => .ok ()
  describeSnapshots := fun _ _ => .ok []
  deleteSnapshot := fun _ => .ok ()
  nowStr := "2016-01-02 03:04"
}

/-- Like `envHappy` but no instance matches the selector. -/
def envNoInstances : Env :=
  { envHappy with describeInstances := fun _ _ => .ok [] }

/-- Like `envHappy` but `describe_instances` raises `BotoCoreError`. -/
def envListFail : Env :=
  { envHappy with describeInstances := fun _ _ => .error (ApiError.mk ("boom")) }

/-- Like `envHappy` but the matching instance has three in-use volumes and
`create_snapshot` fails for the first one. -/
def envCreateFail : Env :=
  { envHappy with
    describeVolumes := fun _ => .ok
      [volSda1,
       Volume.mk ("vol-2") [Attachment.mk ("/dev/sdb1") ("i-1")],
       Volume.mk ("vol-3") [Attachment.mk ("/dev/sdc1") ("i-1")]]
    createSnapshot := fun v =>
      if v = ("vol-1") then .error (ApiError.mk ("boom")) else .ok (("snap-") ++ v) }

/-- Like `envHappy` but the matching instance is `instEmptyName`. -/
def envEmptyName : Env :=
  { envHappy with describeInstances := fun _ _ => .ok [Reservation.mk [instEmptyName]] }

/-- Two matching instances; the first has no in-use volumes, the second has
one. -/
def envNoVolumes : Env :=
  { envHappy with
    describeInstances := fun _ _ => .ok
      [Reservation.mk [Instance.mk ("i-1") [], Instance.mk ("i-2") []]]
    describeVolumes := fun iid =>
      if iid = ("i-1") then .ok []
      else .ok [Volume.mk ("vol-2") [Attachment.mk ("/dev/sdb1") ("i-2")]] }

/-- Tool-created snapshots on two distinct volumes. -/
def envTwoVolSnaps : Env :=
  { envHappy with
    describeSnapshots := fun _ _ => .ok
      [Snapshot.mk ("s1") ("vol-1") 10, Snapshot.mk ("s2") ("vol-2") 20] }

/-- Three tool-created snapshots of `vol-1`, listed out of order. -/
def snapsThree : List Snapshot :=
  [Snapshot.mk ("s3") ("vol-1") 30, Snapshot.mk ("s1") ("vol-1") 10,
   Snapshot.mk ("s2") ("vol-1") 20]

/-! ## Helper lemmas about the sort and the prune loop -/

theorem insertByStart_perm (a : Snapshot) (l : List Snapshot) :
    (insertByStart a l).Perm (a :: l) := by
  induction l with
  | nil => simp [insertByStart]
  | cons b t ih =>
    unfold insertByStart
    split
    · exact List.Perm.refl _
    · exact (List.Perm.cons b ih).trans (List.Perm.swap a b t)

theorem sortByStart_perm (l : List Snapshot) : (sortByStart l).Perm l := by
  induction l with
  | nil => simp [sortByStart]
  | cons a t ih =>
    exact (insertByStart_perm a (sortByStart t)).trans (List.Perm.cons a ih)

theorem mem_sortByStart {s : Snapshot} {l : List Snapshot} :
    s ∈ sortByStart l ↔ s ∈ l :=
  (sortByStart_perm l).mem_iff

theorem pairwise_insertByStart (a : Snapshot) {l : List Snapshot}
    (h : l.Pairwise (fun x y => x.startTime ≤ y.startTime)) :
    (insertByStart a l).Pairwise (fun x y => x.startTime ≤ y.startTime) := by
  induction l with
  | nil => simp [insertByStart]
  | cons b t ih =>
    rw [List.pairwise_cons] at h
    unfold insertByStart
    split
    · rename_i hab
      refine List.Pairwise.cons ?_ (List.Pairwise.cons h.1 h.2)
      intro x hx
      rcases List.mem_cons.mp hx with hx | hx
      · exact hx ▸ hab
      · exact le_trans hab (h.1 x hx)
    · rename_i hab
      refine List.Pairwise.cons ?_ (ih h.2)
      intro x hx
      have hx2 : x ∈ a :: t := (insertByStart_perm a t).mem_iff.mp hx
      rcases List.mem_cons.mp hx2 with hx2 | hx2
      · subst hx2; omega
      · exact h.1 x hx2

theorem sortByStart_pairwise (l : List Snapshot) :
    (sortByStart l).Pairwise (fun x y => x.startTime ≤ y.startTime) := by
  induction l with
  | nil => simp [sortByStart]
  | cons a t ih => exact pairwise_insertByStart a ih

theorem pairwise_take_drop {α : Type} {R : α → α → Prop} {l : List α}
    (h : l.Pairwise R) (k : Nat) :
    ∀ x ∈ l.take k, ∀ y ∈ l.drop k, R x y := by
  have hl := List.take_append_drop k l
  rw [← hl] at h
  exact (List.pairwise_append.mp h).2.2

/-- For a non-negative retention count the prune loop pops exactly the
prefix of length `count − N` and leaves the rest, with no exception. -/
theorem pruneLoop_spec (env : Env) {n : Int} (hn : 0 ≤ n) (l : List Snapshot) :
    (pruneLoop env n l).2.1 = l.take (l.length - n.toNat) ∧
    (pruneLoop env n l).2.2 = .ok (l.drop (l.length - n.toNat)) := by
  induction l with
  | nil =>
    have : ¬ ((0 : Int) > n) := by omega
    simp [pruneLoop, this]
  | cons s rest ih =>
    unfold pruneLoop
    split
    · rename_i hgt
      have hlen : rest.length + 1 - n.toNat = (rest.length - n.toNat) + 1 := by
        simp only [List.length_cons] at hgt
        omega
      simp only [List.length_cons, hlen, List.take_succ_cons, List.drop_succ_cons]
      exact ⟨by simp [ih.1], by simp [ih.2]⟩
    · rename_i hle
      simp only [List.length_cons] at hle ⊢
      have hlen : rest.length + 1 - n.toNat = 0 := by omega
      simp [hlen]

/-- For `num_backups ≤ 0` the loop pops every element of the working list. -/
theorem pruneLoop_drain (env : Env) {n : Int} (hn : n ≤ 0) (l : List Snapshot) :
    (pruneLoop env n l).2.1 = l := by
  induction l with
  | nil => unfold pruneLoop; split <;> rfl
  | cons s rest ih =>
    have hgt : (((s :: rest).length : Int) > n) := by
      simp only [List.length_cons]
      omega
    unfold pruneLoop
    simp only [if_pos hgt]
    simpa using ih

/-- For a negative `num_backups` the loop ends in an uncaught `IndexError`:
`pop(0)` is eventually executed on the empty list. -/
theorem pruneLoop_neg_indexError (env : Env) {n : Int} (hn : n < 0) (l : List Snapshot) :
    (pruneLoop env n l).2.2 = .error .indexError := by
  induction l with
  | nil =>
    have : ((0 : Int) > n) := by omega
    simp [pruneLoop, this]
  | cons s rest ih =>
    have hgt : (((s :: rest).length : Int) > n) := by
      simp only [List.length_cons]
      omega
    unfold pruneLoop
    simp only [if_pos hgt]
    simpa using ih

/-- The popped snapshots and the remainder do not depend on the outcome of
the delete calls: the element is popped before `delete_snapshot` is called
and the `except` clause only logs. -/
theorem pruneLoop_snd_env_independent (env env' : Env) (n : Int) (l : List Snapshot) :
    (pruneLoop env n l).2 = (pruneLoop env' n l).2 := by
  induction l with
  | nil => unfold pruneLoop; split <;> rfl
  | cons s rest ih =>
    unfold pruneLoop
    split
    · simp only []
      rw [show (pruneLoop env n rest).2.1 = (pruneLoop env' n rest).2.1 from
            congrArg Prod.fst ih,
          show (pruneLoop env n rest).2.2 = (pruneLoop env' n rest).2.2 from
            congrArg Prod.snd ih]
    · rfl

/-- Every popped snapshot produced a `delete_snapshot` call in the trace. -/
theorem pruneLoop_deleteCall_mem (env : Env) (n : Int) (l : List Snapshot) :
    ∀ s ∈ (pruneLoop env n l).2.1,
      Event.deleteSnapshotCall s.snapshotId ∈ (pruneLoop env n l).1 := by
  induction l with
  | nil => unfold pruneLoop; split <;> simp
  | cons s rest ih =>
    unfold pruneLoop
    split
    · intro x hx
      simp only [List.mem_cons] at hx
      rcases hx with hx | hx
      · subst hx
        apply List.mem_append_left
        split <;> simp
      · exact List.mem_append_right _ (ih x hx)
    · simp

/-- With retention count `0` the volume loop never raises, and every event
of every per-volume iteration appears in the accumulated trace. -/
theorem pruneVolumes_zero (env : Env) (snaps : List Snapshot) (vids : List String) :
    (pruneVolumes env 0 snaps vids).2 = none ∧
    ∀ vid ∈ vids, ∀ e ∈ (pruneVolume env 0 snaps vid).1,
      e ∈ (pruneVolumes env 0 snaps vids).1 := by
  induction vids with
  | nil => simp [pruneVolumes]
  | cons vid rest ih =>
    have hok : (pruneVolume env 0 snaps vid).2.2 =
        .ok ((snapshotsForVolume snaps vid).drop
          ((snapshotsForVolume snaps vid).length - (0 : Int).toNat)) :=
      (pruneLoop_spec env (by omega) (snapshotsForVolume snaps vid)).2
    constructor
    · simp only [pruneVolumes, hok]
      exact ih.1
    · intro v hv e he
      simp only [pruneVolumes, hok, List.mem_append]
      rcases List.mem_cons.mp hv with hv | hv
      · exact Or.inl (hv ▸ he)
      · exact Or.inr (ih.2 v hv e he)

/-! ## Claim theorems -/

/-- C1 (amended): for a retention count N ≥ 0, for every volume whose group
of tool-created snapshots has count > N the pruner issues delete calls for
exactly count − N snapshots — the oldest by creation timestamp, namely the
prefix of the group sorted ascending by `StartTime` — leaving exactly the N
newest; for count ≤ N it deletes none.  (For N < 0, excluded here, the code
drains the whole group and raises `IndexError`; see the counterexample.) -/
theorem pruner_retention_policy (env : Env) (snaps : List Snapshot) (vid : String)
    (n : Int) (hn : 0 ≤ n) :
    (((snapshotsForVolume snaps vid).length : Int) ≤ n →
      (pruneVolume env n snaps vid).2.1 = []) ∧
    (((snapshotsForVolume snaps vid).length : Int) > n →
      (pruneVolume env n snaps vid).2.1 =
        (snapshotsForVolume snaps vid).take
          ((snapshotsForVolume snaps vid).length - n.toNat) ∧
      (((pruneVolume env n snaps vid).2.1.length : Int) =
        ((snapshotsForVolume snaps vid).length : Int) - n) ∧
      (pruneVolume env n snaps vid).2.2 =
        .ok ((snapshotsForVolume snaps vid).drop
          ((snapshotsForVolume snaps vid).length - n.toNat)) ∧
      ((((snapshotsForVolume snaps vid).drop
          ((snapshotsForVolume snaps vid).length - n.toNat)).length : Int) = n) ∧
      ∀ d ∈ (pruneVolume env n snaps vid).2.1,
        ∀ k ∈ (snapshotsForVolume snaps vid).drop
            ((snapshotsForVolume snaps vid).length - n.toNat),
          d.startTime ≤ k.startTime) := by
  have hspec := pruneLoop_spec env hn (snapshotsForVolume snaps vid)
  constructor
  · intro hle
    have hz : (snapshotsForVolume snaps vid).length - n.toNat = 0 := by omega
    have h1 : (pruneVolume env n snaps vid).2.1 =
        (snapshotsForVolume snaps vid).take
          ((snapshotsForVolume snaps vid).length - n.toNat) := hspec.1
    simpa [hz] using h1
  · intro hgt
    refine ⟨hspec.1, ?_, hspec.2, ?_, ?_⟩
    · have h1 : (pruneVolume env n snaps vid).2.1 =
          (snapshotsForVolume snaps vid).take
            ((snapshotsForVolume snaps vid).length - n.toNat) := hspec.1
      rw [h1, List.length_take]
      omega
    · rw [List.length_drop]
      omega
    · intro d hd k hk
      have hp := sortByStart_pairwise (snaps.filter (fun s => s.volumeId = vid))
      have hd2 : d ∈ (snapshotsForVolume snaps vid).take
          ((snapshotsForVolume snaps vid).length - n.toNat) := hspec.1 ▸ hd
      exact pairwise_take_drop hp _ d hd2 k hk

/-- Witness for C1: three snapshots of `vol-1`, retention 1 — instantiates
`pruner_retention_policy` at a concrete input. -/
theorem pruner_retention_policy_witness :
    (0 : Int) ≤ 1 ∧
    ((((snapshotsForVolume snapsThree ("vol-1")).length : Int) ≤ 1 →
      (pruneVolume envHappy 1 snapsThree ("vol-1")).2.1 = []) ∧
    (((snapshotsForVolume snapsThree ("vol-1")).length : Int) > 1 →
      (pruneVolume envHappy 1 snapsThree ("vol-1")).2.1 =
        (snapshotsForVolume snapsThree ("vol-1")).take
          ((snapshotsForVolume snapsThree ("vol-1")).length - (1 : Int).toNat) ∧
      (((pruneVolume envHappy 1 snapsThree ("vol-1")).2.1.length : Int) =
        ((snapshotsForVolume snapsThree ("vol-1")).length : Int) - 1) ∧
      (pruneVolume envHappy 1 snapsThree ("vol-1")).2.2 =
        .ok ((snapshotsForVolume snapsThree ("vol-1")).drop
          ((snapshotsForVolume snapsThree ("vol-1")).length - (1 : Int).toNat)) ∧
      ((((snapshotsForVolume snapsThree ("vol-1")).drop
          ((snapshotsForVolume snapsThree ("vol-1")).length - (1 : Int).toNat)).length : Int) = 1) ∧
      ∀ d ∈ (pruneVolume envHappy 1 snapsThree ("vol-1")).2.1,
        ∀ k ∈ (snapshotsForVolume snapsThree ("vol-1")).drop
            ((snapshotsForVolume snapsThree ("vol-1")).length - (1 : Int).toNat),
          d.startTime ≤ k.startTime)) :=
  ⟨by decide, pruner_retention_policy envHappy snapsThree ("vol-1") 1 (by decide)⟩

/-- Counterexample to C1 as stated: with retention count N = −1 (the CLI
accepts any integer) and one snapshot, count > N, so C1 predicts exactly
count − N = 2 deletions leaving N of them; the code attempts exactly one
deletion and then raises an uncaught `IndexError`. -/
theorem pruner_retention_policy_cex :
    (pruneVolume envHappy (-1) [Snapshot.mk ("s1") ("vol-1") 10] ("vol-1")).2.1.length = 1 ∧
    ¬ (((pruneVolume envHappy (-1) [Snapshot.mk ("s1") ("vol-1") 10] ("vol-1")).2.1.length : Int)
        = 1 - (-1)) ∧
    (pruneVolume envHappy (-1) [Snapshot.mk ("s1") ("vol-1") 10] ("vol-1")).2.2 =
      .error .indexError := by
  refine ⟨rfl, by decide, rfl⟩

/-- C9 (amended): each snapshot is popped from the working list before its
delete call, so for N ≥ 0 the loop runs exactly max(count − N, 0) iterations,
attempts each snapshot at most once, ends without exception, and its pops and
remainder are independent of the delete outcomes.  (For N < 0 the loop drains
the list and then raises `IndexError`; see the counterexample.) -/
theorem prune_loop_iterations (env : Env) (n : Int) (l : List Snapshot) (hn : 0 ≤ n) :
    (pruneLoop env n l).2.1 = l.take (l.length - n.toNat) ∧
    (((pruneLoop env n l).2.1.length : Int) = max ((l.length : Int) - n) 0) ∧
    (pruneLoop env n l).2.2 = .ok (l.drop (l.length - n.toNat)) ∧
    (∀ s : Snapshot, (pruneLoop env n l).2.1.count s ≤ l.count s) ∧
    ∀ env' : Env, (pruneLoop env' n l).2 = (pruneLoop env n l).2 := by
  have hspec := pruneLoop_spec env hn l
  refine ⟨hspec.1, ?_, hspec.2, ?_, ?_⟩
  · rw [hspec.1, List.length_take]
    omega
  · intro s
    rw [hspec.1]
    exact (List.take_sublist _ l).count_le s
  · intro env'
    exact pruneLoop_snd_env_independent env' env n l

/-- Witness for C9: retention 1 over three snapshots. -/
theorem prune_loop_iterations_witness :
    (0 : Int) ≤ 1 ∧
    ((pruneLoop envHappy 1 snapsThree).2.1 =
        snapsThree.take (snapsThree.length - (1 : Int).toNat) ∧
    (((pruneLoop envHappy 1 snapsThree).2.1.length : Int) =
        max ((snapsThree.length : Int) - 1) 0) ∧
    (pruneLoop envHappy 1 snapsThree).2.2 =
        .ok (snapsThree.drop (snapsThree.length - (1 : Int).toNat)) ∧
    (∀ s : Snapshot, (pruneLoop envHappy 1 snapsThree).2.1.count s ≤ snapsThree.count s) ∧
    ∀ env' : Env, (pruneLoop env' 1 snapsThree).2 = (pruneLoop envHappy 1 snapsThree).2) :=
  ⟨by decide, prune_loop_iterations envHappy 1 snapsThree (by decide)⟩

/-- Counterexample to C9 as stated: with N = −2 and a group of one snapshot
the claim predicts termination after max(1 − (−2), 0) = 3 iterations; the
loop completes one pop-and-delete iteration and then `pop(0)` on the empty
list raises an uncaught `IndexError`. -/
theorem prune_loop_iterations_cex :
    (pruneLoop envHappy (-2) [Snapshot.mk ("s1") ("vol-1") 10]).2.1.length = 1 ∧
    ¬ (((pruneLoop envHappy (-2) [Snapshot.mk ("s1") ("vol-1") 10]).2.1.length : Int)
        = max ((1 : Int) - (-2)) 0) ∧
    (pruneLoop envHappy (-2) [Snapshot.mk ("s1") ("vol-1") 10]).2.2 =
      .error .indexError := by
  refine ⟨rfl, by decide, rfl⟩

/-- C10 (amended): `--num-backups` is passed through with no validation
(`mainRun` and `deleteOldSnapshots` take any integer).  For num_backups = 0
the pruner attempts to delete every tool-created snapshot of every discovered
volume; for num_backups < 0 every volume group it processes is drained to
empty, but the loop then raises an uncaught `IndexError`, so volumes after
the first are not reached (see the counterexample). -/
theorem pruner_nonpositive_retention (env : Env) (tagKey tagValue : String)
    (snaps : List Snapshot) (h : env.describeSnapshots tagKey tagValue = .ok snaps) :
    (∀ s ∈ snaps, Event.deleteSnapshotCall s.snapshotId ∈
      (deleteOldSnapshots env tagKey tagValue 0).1) ∧
    ∀ n : Int, n < 0 → ∀ vid : String,
      (pruneVolume env n snaps vid).2.1 = snapshotsForVolume snaps vid ∧
      (pruneVolume env n snaps vid).2.2 = .error .indexError := by
  constructor
  · intro s hs
    have hmem : s.volumeId ∈ (snaps.map (fun s => s.volumeId)).dedup :=
      List.mem_dedup.mpr (List.mem_map_of_mem _ hs)
    have hgrp : s ∈ snapshotsForVolume snaps s.volumeId :=
      mem_sortByStart.mpr (List.mem_filter.mpr ⟨hs, by simp⟩)
    have hdrain : (pruneVolume env 0 snaps s.volumeId).2.1 =
        snapshotsForVolume snaps s.volumeId :=
      pruneLoop_drain env (by omega) _
    have hmem2 : s ∈ (pruneVolume env 0 snaps s.volumeId).2.1 := by
      rw [hdrain]; exact hgrp
    have hev : Event.deleteSnapshotCall s.snapshotId ∈
        (pruneVolume env 0 snaps s.volumeId).1 :=
      pruneLoop_deleteCall_mem env 0 _ s hmem2
    have hall := pruneVolumes_zero env snaps ((snaps.map (fun s => s.volumeId)).dedup)
    have hin := hall.2 s.volumeId hmem _ hev
    simp only [deleteOldSnapshots, h]
    exact List.mem_append_right _ hin
  · intro n hneg vid
    exact ⟨pruneLoop_drain env (by omega) _, pruneLoop_neg_indexError env hneg _⟩

/-- Witness for C10: two snapshots on two volumes. -/
theorem pruner_nonpositive_retention_witness :
    envTwoVolSnaps.describeSnapshots ("Lifecycle") ("legacy") =
      .ok [Snapshot.mk ("s1") ("vol-1") 10, Snapshot.mk ("s2") ("vol-2") 20] ∧
    ((∀ s ∈ [Snapshot.mk ("s1") ("vol-1") 10, Snapshot.mk ("s2") ("vol-2") 20],
      Event.deleteSnapshotCall s.snapshotId ∈
        (deleteOldSnapshots envTwoVolSnaps ("Lifecycle") ("legacy") 0).1) ∧
    ∀ n : Int, n < 0 → ∀ vid : String,
      (pruneVolume envTwoVolSnaps n
          [Snapshot.mk ("s1") ("vol-1") 10, Snapshot.mk ("s2") ("vol-2") 20] vid).2.1 =
        snapshotsForVolume
          [Snapshot.mk ("s1") ("vol-1") 10, Snapshot.mk ("s2") ("vol-2") 20] vid ∧
      (pruneVolume envTwoVolSnaps n
          [Snapshot.mk ("s1") ("vol-1") 10, Snapshot.mk ("s2") ("vol-2") 20] vid).2.2 =
        .error .indexError) :=
  ⟨rfl, pruner_nonpositive_retention envTwoVolSnaps ("Lifecycle") ("legacy")
    [Snapshot.mk ("s1") ("vol-1") 10, Snapshot.mk ("s2") ("vol-2") 20] rfl⟩

/-- Counterexample to C10 as stated: with num_backups = −1 and snapshots on
two volumes, the pruner attempts the first volume's snapshot, raises
`IndexError`, and never attempts `s2` on the second volume — so it does not
attempt "every tool-created snapshot of every discovered volume". -/
theorem pruner_nonpositive_retention_cex :
    Event.deleteSnapshotCall ("s1") ∈
      (deleteOldSnapshots envTwoVolSnaps ("Lifecycle") ("legacy") (-1)).1 ∧
    Event.deleteSnapshotCall ("s2") ∉
      (deleteOldSnapshots envTwoVolSnaps ("Lifecycle") ("legacy") (-1)).1 ∧
    (deleteOldSnapshots envTwoVolSnaps ("Lifecycle") ("legacy") (-1)).2 =
      .raised .indexError := by
  refine ⟨by decide, by decide, rfl⟩

/-- C2 (code bug): when `create_snapshot` fails for the first of three
eligible volumes, the failure is logged, but the missing `continue` lets
control fall through to `create_tags`, where the never-assigned variable
`snapshot` raises an uncaught `NameError`: the whole batch aborts and the
other two volumes get no create-snapshot call (exactly one mutating call —
the failed create — appears in the trace). -/
theorem creator_first_volume_failure_aborts_batch :
    makeSnapshots envCreateFail ("Lifecycle") ("legacy") =
      ([Event.describeInstancesCall ("Lifecycle") ("legacy"),
        Event.describeVolumesCall ("i-1"),
        Event.createSnapshotCall ("vol-1")
          ("automated snapshot of volume vol-1 attached as /dev/sda1 to web1 (i-1)"),
        Event.logError ("Creating a snapshot of volume vol-1 failed:\nboom")],
       .raised .nameError) ∧
    ((makeSnapshots envCreateFail ("Lifecycle") ("legacy")).1.countP
      (fun e => e.isMutatingCall)) = 1 := by
  refine ⟨rfl, by decide⟩

/-- C3 (amended): whenever the instance loop processes an instance whose
volume listing succeeds with zero in-use volumes, the condition is reported
as a warning (not an error), but the whole run then terminates with
`sys.exit(1)`: the remaining instances contribute nothing to the trace. -/
theorem instance_without_volumes_warns_then_exits (env : Env)
    (tagKey tagValue : String) (snapVar : Option String)
    (volsVar : Option (List Volume)) (inst : Instance) (rest : List Instance)
    (h : env.describeVolumes inst.instanceId = .ok []) :
    processInstances env tagKey tagValue snapVar volsVar (inst :: rest) =
      ([Event.describeVolumesCall inst.instanceId,
        Event.logWarning (("Found instance ") ++ inst.instanceId ++
          (" to backup, but no attached volumes. Something is fishy here. Aborting …"))],
       .exited 1) := by
  simp [processInstances, processInstance, h]

/-- Witness for C3 (amended) at a concrete instance with no volumes. -/
theorem instance_without_volumes_warns_then_exits_witness :
    envNoVolumes.describeVolumes ("i-1") = .ok [] ∧
    processInstances envNoVolumes ("Lifecycle") ("legacy") none none
        [Instance.mk ("i-1") [], Instance.mk ("i-2") []] =
      ([Event.describeVolumesCall ("i-1"),
        Event.logWarning (("Found instance ") ++ ("i-1") ++
          (" to backup, but no attached volumes. Something is fishy here. Aborting …"))],
       .exited 1) :=
  ⟨rfl, instance_without_volumes_warns_then_exits envNoVolumes ("Lifecycle") ("legacy")
    none none (Instance.mk ("i-1") []) [Instance.mk ("i-2") []] rfl⟩

/-- Counterexample to C3 as stated: two matching instances, the first with
zero in-use volumes — the run warns but exits with code 1 and the second
instance is never queried, instead of continuing. -/
theorem instance_without_volumes_claim_cex :
    makeSnapshots envNoVolumes ("Lifecycle") ("legacy") =
      ([Event.describeInstancesCall ("Lifecycle") ("legacy"),
        Event.describeVolumesCall ("i-1"),
        Event.logWarning (("Found instance ") ++ ("i-1") ++
          (" to backup, but no attached volumes. Something is fishy here. Aborting …"))],
       .exited 1) ∧
    Event.describeVolumesCall ("i-2") ∉
      (makeSnapshots envNoVolumes ("Lifecycle") ("legacy")).1 := by
  refine ⟨rfl, by decide⟩

/-- C4 (code bug): when `describe_instances` raises, the failure is logged
as an error, but execution falls through to line 37, where the never-assigned
`reservations` is evaluated and raises an uncaught `NameError` — the code
does evaluate an undefined listing result. -/
theorem creator_listing_failure_evaluates_undefined :
    makeSnapshots envListFail ("Lifecycle") ("legacy") =
      ([Event.describeInstancesCall ("Lifecycle") ("legacy"),
        Event.logError ("Failed to get list of instances to back up:\nboom")],
       .raised .nameError) := rfl

/-- C5: with a valid selector and zero matching instances, the run performs
no mutating API call and the process exits cleanly with code 0. -/
theorem creator_zero_matches_clean_exit (env : Env) (tagArg : String) (n : Int)
    (k v : String) (rss : List Reservation)
    (hs : env.sessionResult = .ok ())
    (ht : splitTag tagArg = [k, v])
    (hi : env.describeInstances k v = .ok rss)
    (hflat : (rss.map (fun r => r.instances)).flatten = []) :
    (mainRun env tagArg n).2 = .exited 0 ∧
    ∀ e ∈ (mainRun env tagArg n).1, e.isMutatingCall = false := by
  have h1 : makeSnapshots env k v =
      ([Event.describeInstancesCall k v,
        Event.logWarning (("Couldn\x27t find any instances whose volumes need ") ++
          ("snapshotting. Aborting …"))], .exited 0) := by
    simp [makeSnapshots, hi, hflat]
  have h2 : mainRun env tagArg n =
      ([Event.describeInstancesCall k v,
        Event.logWarning (("Couldn\x27t find any instances whose volumes need ") ++
          ("snapshotting. Aborting …"))], .exited 0) := by
    simp [mainRun, hs, ht, h1]
  rw [h2]
  refine ⟨rfl, ?_⟩
  intro e he
  simp only [List.mem_cons, List.not_mem_nil, or_false] at he
  rcases he with rfl | rfl <;> rfl

/-- Witness for C5 at a concrete oracle with no matching instances. -/
theorem creator_zero_matches_clean_exit_witness :
    envNoInstances.sessionResult = .ok () ∧
    splitTag ("Lifecycle:legacy") = [("Lifecycle"), ("legacy")] ∧
    envNoInstances.describeInstances ("Lifecycle") ("legacy") = .ok [] ∧
    (([] : List Reservation).map (fun r => r.instances)).flatten = [] ∧
    ((mainRun envNoInstances ("Lifecycle:legacy") 14).2 = .exited 0 ∧
      ∀ e ∈ (mainRun envNoInstances ("Lifecycle:legacy") 14).1,
        e.isMutatingCall = false) :=
  ⟨rfl, by decide, rfl, rfl,
    creator_zero_matches_clean_exit envNoInstances ("Lifecycle:legacy") 14
      ("Lifecycle") ("legacy") [] rfl (by decide) rfl rfl⟩

/-- C6 (amended): every tags the creator passes to a `create_tags` call while
processing volume `vol` of an instance are exactly `codeExpectedTags`:
`Name = <label> <devices> <timestamp>` where the label is the instance's
`Name` tag value when present and non-empty and otherwise the attaching
instance id(s); `Creator = ebs_snapshot_automation`;
`Origin-Instance = <instance id>`; `Origin-<selector-key> = <selector
value>`.  (The claim's reading of the label — the `Name` tag value whenever
the tag is present, even if empty — fails; see the counterexample.) -/
theorem creator_tagging_call_tags (env : Env) (inst : Instance) (vol : Volume)
    (tagKey tagValue : String) (snapVar : Option String) (sid : String)
    (tags : List Tag)
    (h : Event.createTagsCall sid tags ∈
      (processVolume env inst.instanceId (instanceNameOf inst) tagKey tagValue
        snapVar vol).1) :
    tags = codeExpectedTags inst vol tagKey tagValue env.nowStr := by
  simp only [processVolume] at h
  split at h
  · -- `snapshot` never assigned: NameError path, the trace has no tagging call
    split at h <;> simp at h
  · rcases List.mem_append.mp h with h1 | h1
    · split at h1 <;> simp at h1
    · unfold codeExpectedTags
      cases hc : isTruthyName (instanceNameOf inst) <;>
        · simp only [hc, Bool.false_eq_true, if_false, if_true, reduceIte] at h1 ⊢
          split at h1 <;> simp_all

/-- Witness for C6 (amended): the happy-path tagging call of `web1`. -/
theorem creator_tagging_call_tags_witness :
    Event.createTagsCall ("snap-vol-1")
        (codeExpectedTags instWeb1 volSda1 ("Lifecycle") ("legacy")
          ("2016-01-02 03:04")) ∈
      (processVolume envHappy instWeb1.instanceId (instanceNameOf instWeb1)
        ("Lifecycle") ("legacy") none volSda1).1 ∧
    codeExpectedTags instWeb1 volSda1 ("Lifecycle") ("legacy") ("2016-01-02 03:04") =
      codeExpectedTags instWeb1 volSda1 ("Lifecycle") ("legacy") ("2016-01-02 03:04") :=
  ⟨by decide,
    creator_tagging_call_tags envHappy instWeb1 volSda1 ("Lifecycle") ("legacy")
      none ("snap-vol-1") _ (by decide)⟩

/-- Counterexample to C6 as stated: instance `i-1` carries a `Name` tag whose
value is the empty string.  The tag is present, so the claim predicts the
label `''` (`Name = " /dev/sda1 <timestamp>"`, per `claimExpectedTags`); the
code's truthiness test treats the empty name as absent and applies the
fallback label `i-1` instead. -/
theorem creator_tagging_claim_cex :
    (instEmptyName.tags.find? (fun t => t.key = ("Name"))).isSome = true ∧
    Event.createTagsCall ("snap-vol-1")
        (claimExpectedTags instEmptyName volSda1 ("Lifecycle") ("legacy")
          ("2016-01-02 03:04")) ∉
      (makeSnapshots envEmptyName ("Lifecycle") ("legacy")).1 ∧
    Event.createTagsCall ("snap-vol-1")
        [Tag.mk ("Name") ("i-1 /dev/sda1 2016-01-02 03:04"),
         Tag.mk ("Creator") ("ebs_snapshot_automation"),
         Tag.mk ("Origin-Instance") ("i-1"),
         Tag.mk ("Origin-Lifecycle") ("legacy")] ∈
      (makeSnapshots envEmptyName ("Lifecycle") ("legacy")).1 := by
  refine ⟨rfl, by decide, by decide⟩

/-- C7: a `--tag` argument that does not split into exactly one
colon-separated key/value pair makes the run exit with code 1 after logging
an error, with no cloud API call in the trace (session construction precedes
the check but performs no API call; when it fails, that configuration error
likewise exits 1 before any API call). -/
theorem malformed_selector_rejected (env : Env) (tagArg : String) (n : Int)
    (h : (splitTag tagArg).length ≠ 2) :
    (mainRun env tagArg n).2 = .exited 1 ∧
    (∀ e ∈ (mainRun env tagArg n).1, e.isApiCall = false) ∧
    ∃ m : String, Event.logError m ∈ (mainRun env tagArg n).1 := by
  cases hs : env.sessionResult with
  | error er =>
    have h2 : mainRun env tagArg n =
        ([Event.logError (("Connecting to the EC2 API failed: ") ++ er.msg)],
         .exited 1) := by
      simp [mainRun, hs]
    rw [h2]
    refine ⟨rfl, ?_, ⟨("Connecting to the EC2 API failed: ") ++ er.msg, by simp⟩⟩
    intro e he
    simp only [List.mem_cons, List.not_mem_nil, or_false] at he
    subst he
    rfl
  | ok u =>
    have h2 : mainRun env tagArg n =
        ([Event.logError (("Given tag key value: \"") ++ tagArg ++ ("\" is invalid."))],
         .exited 1) := by
      simp [mainRun, hs, h]
    rw [h2]
    refine ⟨rfl, ?_,
      ⟨("Given tag key value: \"") ++ tagArg ++ ("\" is invalid."), by simp⟩⟩
    intro e he
    simp only [List.mem_cons, List.not_mem_nil, or_false] at he
    subst he
    rfl

/-- Witness for C7: the default-style argument without a colon. -/
theorem malformed_selector_rejected_witness :
    (splitTag ("abc")).length ≠ 2 ∧
    ((mainRun envHappy ("abc") 14).2 = .exited 1 ∧
      (∀ e ∈ (mainRun envHappy ("abc") 14).1, e.isApiCall = false) ∧
      ∃ m : String, Event.logError m ∈ (mainRun envHappy ("abc") 14).1) :=
  ⟨by decide, malformed_selector_rejected envHappy ("abc") 14 (by decide)⟩

/-- C8 (amended): with a working session and a valid selector, whenever the
Snapshot Creator returns normally the Retention Pruner runs right after it —
the run's trace is the Creator's followed by the Pruner's, and the Pruner's
snapshot listing call is reached.  (The Creator can instead terminate the
whole process first — exit 0 on zero matches, exit 1 on an instance with no
volumes, or an uncaught exception — in which case the Pruner never runs; see
the counterexample.) -/
theorem pruner_runs_after_creator (env : Env) (tagArg : String) (n : Int)
    (k v : String) (hs : env.sessionResult = .ok ())
    (ht : splitTag tagArg = [k, v])
    (hp : (makeSnapshots env k v).2 = .normal) :
    mainRun env tagArg n =
      ((makeSnapshots env k v).1 ++ (deleteOldSnapshots env k v n).1,
       (deleteOldSnapshots env k v n).2) ∧
    Event.describeSnapshotsCall k v ∈ (mainRun env tagArg n).1 := by
  have h2 : mainRun env tagArg n =
      ((makeSnapshots env k v).1 ++ (deleteOldSnapshots env k v n).1,
       (deleteOldSnapshots env k v n).2) := by
    simp [mainRun, hs, ht, hp]
  refine ⟨h2, ?_⟩
  rw [h2]
  refine List.mem_append_right _ ?_
  cases hq : env.describeSnapshots k v <;> simp [deleteOldSnapshots, hq]

/-- Witness for C8 (amended): the happy-path run reaches the pruner. -/
theorem pruner_runs_after_creator_witness :
    envHappy.sessionResult = .ok () ∧
    splitTag ("Lifecycle:legacy") = [("Lifecycle"), ("legacy")] ∧
    (makeSnapshots envHappy ("Lifecycle") ("legacy")).2 = .normal ∧
    (mainRun envHappy ("Lifecycle:legacy") 14 =
      ((makeSnapshots envHappy ("Lifecycle") ("legacy")).1 ++
        (deleteOldSnapshots envHappy ("Lifecycle") ("legacy") 14).1,
       (deleteOldSnapshots envHappy ("Lifecycle") ("legacy") 14).2) ∧
    Event.describeSnapshotsCall ("Lifecycle") ("legacy") ∈
      (mainRun envHappy ("Lifecycle:legacy") 14).1) :=
  ⟨rfl, by decide, rfl,
    pruner_runs_after_creator envHappy ("Lifecycle:legacy") 14
      ("Lifecycle") ("legacy") rfl (by decide) rfl⟩

/-- Counterexample to C8 as stated: a valid selector with zero matching
instances — `make_snapshots` calls `sys.exit(0)`, so the Pruner phase is
never reached on this invocation. -/
theorem pruner_runs_after_creator_cex :
    mainRun envNoInstances ("Lifecycle:legacy") 14 =
      ([Event.describeInstancesCall ("Lifecycle") ("legacy"),
        Event.logWarning (("Couldn\x27t find any instances whose volumes need ") ++
          ("snapshotting. Aborting …"))], .exited 0) ∧
    Event.describeSnapshotsCall ("Lifecycle") ("legacy") ∉
      (mainRun envNoInstances ("Lifecycle:legacy") 14).1 := by
  refine ⟨rfl, by decide⟩

end EbsSnapshotAutomation
